import Mathlib

/-!
Verification development for the plataforma-freelancer backend.

The definitions below are a shallow embedding of the code in
src/unnamed/part_000 (the express server: session/JWT secret handling, the
multer upload configuration, and the POST /api/upload-avatar handler) and of
src/check-user-profiles-table.js (the user_profiles check script).  Response
messages are transliterated to plain ASCII.  The jsonwebtoken library is an
external dependency, so the credential codec is modelled from the spec.
-/

namespace Plataforma

/-- Identity claim set embedded in a session credential.  Field names follow
the JWT payload visible in the repository scripts: id, email, userType,
provider, iat (issued at), exp (expiry instant, seconds). -/
structure IdentityClaimSet where
  id : String
  email : String
  userType : String
  provider : String
  iat : Nat
  exp : Nat
deriving DecidableEq

/-- Modelled from the spec: the jsonwebtoken library called at
src/unnamed/part_000 line 99 is an external dependency.  A credential is
either an unparsable blob or a claim set signed under some secret. -/
inductive Token where
  | malformed (raw : String)
  | signed (claims : IdentityClaimSet) (secret : String)
deriving DecidableEq

/-- Outcome of credential verification, with the three distinct error kinds
of the spec taxonomy. -/
inductive VerifyResult where
  | ok (claims : IdentityClaimSet)
  | invalidSignature
  | malformedErr
  | expired
deriving DecidableEq

/-- Modelled from the spec: jwt.verify rejects unparsable structure as
Malformed, a signature under a different secret as InvalidSignature, checks
the expiry instant last, and on success returns the embedded claims
unchanged. -/
def verify (t : Token) (secret : String) (now : Nat) : VerifyResult :=
  match t with
  | .malformed _ => .malformedErr
  | .signed c s =>
    if s ≠ secret then .invalidSignature
    else if c.exp < now then .expired
    else .ok c

/-- Modelled from the spec: jwt.sign embeds the claim set verbatim under the
process signing secret. -/
def issue (c : IdentityClaimSet) (secret : String) : Token :=
  .signed c secret

/-- Embeds line 99 of src/unnamed/part_000: the JWT secret is the environment
value when present, else the hard coded default string. -/
def jwtSecretOf (env : Option String) : String :=
  env.getD "tu_jwt_secret_aqui"

/-- Embeds line 24 of src/unnamed/part_000: the session secret is the
environment value when present, else the hard coded default string. -/
def sessionSecretOf (env : Option String) : String :=
  env.getD "tu_session_secret_aqui"

/-- Multer file object for the avatar part: original name, mimetype, size in
bytes, the generated stored filename, and the stored path on disk. -/
structure UploadFile where
  originalname : String
  mimetype : String
  size : Nat
  filename : String
  path : String
deriving DecidableEq

/-- Embeds line 61 of src/unnamed/part_000: fileSize limit of 5 MB. -/
def fileSizeLimit : Nat := 5 * 1024 * 1024

/-- Embeds the fileFilter at lines 63 to 69 of src/unnamed/part_000: a file
is accepted when its mimetype begins with the six characters image/ (the
check is done charwise on the string data). -/
def fileFilterAccepts (f : UploadFile) : Bool :=
  f.mimetype.data.take 6 == "image/".data

/-- The two upload rejection kinds produced by the multer configuration:
the fileFilter rejection (non image) and the size limit rejection. -/
inductive UploadError where
  | unsupportedMediaType
  | payloadTooLarge
deriving DecidableEq

/-- Combined multer admission check of lines 58 to 70: the fileFilter runs
first on the mimetype; an admitted file is then subject to the 5 MB
fileSize limit. -/
def multerCheck (f : UploadFile) : Option UploadError :=
  if fileFilterAccepts f = false then some .unsupportedMediaType
  else if fileSizeLimit < f.size then some .payloadTooLarge
  else none

/-- Row of the user_profiles table, with the columns the repository reads
and writes: user_id, email, full_name, avatar_url. -/
structure ProfileRow where
  user_id : String
  email : String
  full_name : String
  avatar_url : Option String
deriving DecidableEq

/-- Embeds the supabase update at lines 109 to 112 of src/unnamed/part_000:
set avatar_url on every row whose email column equals the decoded email. -/
def updateAvatarByEmail (ps : List ProfileRow) (email url : String) : List ProfileRow :=
  ps.map fun p => if p.email = email then { p with avatar_url := some url } else p

/-- Environment configuration consumed by the avatar endpoint. -/
structure Env where
  jwtSecret : Option String
  backendUrl : Option String
  supabaseConfigured : Bool

/-- Observable server state: the set of persisted asset paths under the
uploads directory, and the user_profiles table. -/
structure ServerState where
  uploadedFiles : List String
  profiles : List ProfileRow
deriving DecidableEq

/-- Inbound request to POST /api/upload-avatar before multer runs: the
optional avatar multipart field and the optional bearer credential. -/
structure RawRequest where
  filePart : Option UploadFile
  auth : Option Token

/-- HTTP responses the endpoint can produce (status plus JSON message). -/
inductive Response where
  | ok (avatar_url : String)
  | badRequest (msg : String)
  | unauthorized (msg : String)
  | serverError (msg : String)
deriving DecidableEq

/-- Embeds line 105 of src/unnamed/part_000: the avatar URL built from the
backend URL (with default) and the stored filename. -/
def avatarUrlFor (env : Env) (f : UploadFile) : String :=
  env.backendUrl.getD "http://localhost:3001" ++ "/uploads/avatars/" ++ f.filename

/-- Embeds the POST /api/upload-avatar pipeline of lines 83 to 135 of
src/unnamed/part_000.  Multer runs first: a rejected file reaches the error
handler at line 202 (500 response) without being stored; an admitted file is
written to disk before the handler body runs.  The handler then checks for
the file, then for the bearer token, verifies it, and when supabase is
configured performs the update by email; on a database error the stored file
is unlinked before the 500 response.  dbError models the external database
failing the update. -/
def uploadAvatar (env : Env) (now : Nat) (req : RawRequest) (dbError : Bool)
    (st : ServerState) : Response × ServerState :=
  match req.filePart with
  | none => (.badRequest "No se proporciono ningun archivo", st)
  | some f =>
    match multerCheck f with
    | some _ => (.serverError "Algo salio mal", st)
    | none =>
      let st1 : ServerState := { st with uploadedFiles := f.path :: st.uploadedFiles }
      match req.auth with
      | none => (.unauthorized "Token de autenticacion requerido", st1)
      | some tok =>
        match verify tok (jwtSecretOf env.jwtSecret) now with
        | .ok decoded =>
          if env.supabaseConfigured then
            if dbError then
              (.serverError "Error al actualizar el avatar en la base de datos",
                { st1 with uploadedFiles := st1.uploadedFiles.erase f.path })
            else
              (.ok (avatarUrlFor env f),
                { st1 with
                    profiles := updateAvatarByEmail st1.profiles decoded.email (avatarUrlFor env f) })
          else
            (.ok (avatarUrlFor env f), st1)
        | _ => (.unauthorized "Token invalido", st1)

/-- Store view served to the check script: the user_profiles rows and the
ids present in the freelancers table. -/
structure ApiView where
  profiles : List ProfileRow
  freelancerIds : List String
deriving DecidableEq

/-- True when a user_profiles row with the given user_id exists. -/
def profileExists (ps : List ProfileRow) (uid : String) : Bool :=
  ps.any fun p => p.user_id == uid

/-- The freelancer id hard coded at line 33 of
src/check-user-profiles-table.js. -/
def targetFreelancerId : String := "7f5ad001-cc80-4914-b7b2-7fba5caa4b02"

/-- Embeds checkUserProfiles of src/check-user-profiles-table.js lines 32 to
55: the script looks the freelancer id up in user_profiles and logs the
outcome; when the row is missing it logs the diagnosis and suggested fix.
It performs only GET requests, so the store is returned unchanged. -/
def checkUserProfiles (v : ApiView) : List String × ApiView :=
  let logs :=
    if profileExists v.profiles targetFreelancerId then
      ["Freelancer encontrado en user_profiles"]
    else
      ["Freelancer NO encontrado en user_profiles",
       "SOLUCION: El freelancer existe en la tabla freelancers pero NO en user_profiles",
       "Necesitamos crear el registro en user_profiles o modificar el endpoint"]
  (logs, v)

/-- Concrete claim set used by witnesses. -/
def wClaims : IdentityClaimSet :=
  ⟨"u1", "a@b.c", "client", "google", 0, 100⟩

/-- Concrete credential signed under the default JWT secret. -/
def wTok : Token :=
  .signed wClaims "tu_jwt_secret_aqui"

/-- Concrete admitted image file. -/
def wFile : UploadFile :=
  ⟨"a.png", "image/png", 100, "avatar-1.png", "uploads/avatars/avatar-1.png"⟩

/-- Second concrete admitted image file. -/
def wFile2 : UploadFile :=
  ⟨"b.png", "image/png", 100, "avatar-2.png", "uploads/avatars/avatar-2.png"⟩

/-- Profile row of the witness user u1 (email a@b.c). -/
def wProfile : ProfileRow :=
  ⟨"u1", "a@b.c", "A", none⟩

/-- Every row produced by updateAvatarByEmail whose email matches the
addressed email carries the new url. -/
theorem updateAvatarByEmail_matching (ps : List ProfileRow) (e u : String) :
    ∀ p ∈ updateAvatarByEmail ps e u, p.email = e → p.avatar_url = some u := by
  intro p hp hpe
  simp only [updateAvatarByEmail, List.mem_map] at hp
  obtain ⟨q, _, hqe⟩ := hp
  by_cases h : q.email = e
  · rw [if_pos h] at hqe
    rw [← hqe]
  · rw [if_neg h] at hqe
    rw [← hqe] at hpe
    exact absurd hpe h

/-- C1: in the avatar update transaction, when the database update of the
avatar reference fails after the asset was persisted, the handler deletes
the just persisted asset before returning the 500 response, so afterwards
the asset is no longer in storage and the profile table is untouched. -/
theorem C1_rollback_on_update_failure (env : Env) (now : Nat) (f : UploadFile)
    (tok : Token) (st : ServerState) (decoded : IdentityClaimSet)
    (hconf : env.supabaseConfigured = true)
    (hm : multerCheck f = none)
    (hv : verify tok (jwtSecretOf env.jwtSecret) now = .ok decoded)
    (hfresh : f.path ∉ st.uploadedFiles) :
    (uploadAvatar env now ⟨some f, some tok⟩ true st).1
        = .serverError "Error al actualizar el avatar en la base de datos" ∧
    f.path ∉ (uploadAvatar env now ⟨some f, some tok⟩ true st).2.uploadedFiles ∧
    (uploadAvatar env now ⟨some f, some tok⟩ true st).2.profiles = st.profiles := by
  simp only [uploadAvatar, hm, hv, hconf, if_true, List.erase_cons_head]
  exact ⟨trivial, hfresh, trivial⟩

/-- C1 witness: concrete failing update with a fresh asset path. -/
theorem C1_rollback_on_update_failure_witness :
    (uploadAvatar ⟨none, none, true⟩ 0 ⟨some wFile, some wTok⟩ true ⟨[], [wProfile]⟩).1
        = .serverError "Error al actualizar el avatar en la base de datos" ∧
    wFile.path ∉ (uploadAvatar ⟨none, none, true⟩ 0 ⟨some wFile, some wTok⟩ true ⟨[], [wProfile]⟩).2.uploadedFiles ∧
    (uploadAvatar ⟨none, none, true⟩ 0 ⟨some wFile, some wTok⟩ true ⟨[], [wProfile]⟩).2.profiles
        = (⟨[], [wProfile]⟩ : ServerState).profiles :=
  C1_rollback_on_update_failure ⟨none, none, true⟩ 0 wFile wTok ⟨[], [wProfile]⟩ wClaims
    rfl (by decide) (by decide) (by decide)

/-- C3 counterexample: a request with a valid image part and no credential
at all is rejected with 401, yet the just persisted asset remains in
storage — so verification does not precede persistence. -/
theorem C3_counterexample :
    (uploadAvatar ⟨none, none, false⟩ 0 ⟨some wFile, none⟩ false ⟨[], []⟩).1
        = .unauthorized "Token de autenticacion requerido" ∧
    wFile.path ∈ (uploadAvatar ⟨none, none, false⟩ 0 ⟨some wFile, none⟩ false ⟨[], []⟩).2.uploadedFiles := by
  decide

/-- C3 amended: multer persists an admitted asset before the handler checks
the credential, so every request with an admitted image and a missing or
unverifiable credential receives a 401 response while the newly persisted
asset remains in storage. -/
theorem C3_asset_persisted_before_auth (env : Env) (now : Nat) (f : UploadFile)
    (auth : Option Token) (dbe : Bool) (st : ServerState)
    (hm : multerCheck f = none)
    (hrej : ∀ tok c, auth = some tok → verify tok (jwtSecretOf env.jwtSecret) now ≠ .ok c) :
    ((uploadAvatar env now ⟨some f, auth⟩ dbe st).1 = .unauthorized "Token de autenticacion requerido" ∨
     (uploadAvatar env now ⟨some f, auth⟩ dbe st).1 = .unauthorized "Token invalido") ∧
    f.path ∈ (uploadAvatar env now ⟨some f, auth⟩ dbe st).2.uploadedFiles := by
  cases auth with
  | none =>
    simp only [uploadAvatar, hm]
    exact ⟨Or.inl trivial, List.mem_cons_self _ _⟩
  | some tok =>
    cases hvr : verify tok (jwtSecretOf env.jwtSecret) now with
    | ok c => exact absurd hvr (hrej tok c rfl)
    | invalidSignature =>
      simp only [uploadAvatar, hm, hvr]
      exact ⟨Or.inr trivial, List.mem_cons_self _ _⟩
    | malformedErr =>
      simp only [uploadAvatar, hm, hvr]
      exact ⟨Or.inr trivial, List.mem_cons_self _ _⟩
    | expired =>
      simp only [uploadAvatar, hm, hvr]
      exact ⟨Or.inr trivial, List.mem_cons_self _ _⟩

/-- C3 amended witness: concrete request with no credential. -/
theorem C3_asset_persisted_before_auth_witness :
    ((uploadAvatar ⟨none, none, false⟩ 0 ⟨some wFile, none⟩ false ⟨[], []⟩).1
        = .unauthorized "Token de autenticacion requerido" ∨
     (uploadAvatar ⟨none, none, false⟩ 0 ⟨some wFile, none⟩ false ⟨[], []⟩).1
        = .unauthorized "Token invalido") ∧
    wFile.path ∈ (uploadAvatar ⟨none, none, false⟩ 0 ⟨some wFile, none⟩ false ⟨[], []⟩).2.uploadedFiles :=
  C3_asset_persisted_before_auth ⟨none, none, false⟩ 0 wFile none false ⟨[], []⟩
    (by decide) (fun tok c h => nomatch h)

/-- C8: a file whose mimetype is not an image mimetype is rejected as
UnsupportedMediaType; an image file larger than the fixed 5 MB ceiling is
rejected as PayloadTooLarge; an image file of at most 5 MB passes both
admission checks. -/
theorem C8_media_type_and_size_checks (f : UploadFile) :
    (fileFilterAccepts f = false → multerCheck f = some .unsupportedMediaType) ∧
    (fileFilterAccepts f = true → fileSizeLimit < f.size → multerCheck f = some .payloadTooLarge) ∧
    (fileFilterAccepts f = true → f.size ≤ fileSizeLimit → multerCheck f = none) := by
  refine ⟨fun h => ?_, fun h1 h2 => ?_, fun h1 h2 => ?_⟩
  · simp [multerCheck, h]
  · simp [multerCheck, h1, h2]
  · simp [multerCheck, h1, Nat.not_lt.mpr h2]

/-- C8 witness: a text file is rejected as UnsupportedMediaType, a 6 MB
image as PayloadTooLarge, and a 5 MB image is admitted. -/
theorem C8_media_type_and_size_checks_witness :
    multerCheck ⟨"n.txt", "text/plain", 10, "n.txt", "uploads/n.txt"⟩
        = some .unsupportedMediaType ∧
    multerCheck ⟨"big.png", "image/png", 6291456, "big.png", "uploads/big.png"⟩
        = some .payloadTooLarge ∧
    multerCheck ⟨"ok.png", "image/png", 5242880, "ok.png", "uploads/ok.png"⟩ = none :=
  ⟨(C8_media_type_and_size_checks _).1 (by decide),
   (C8_media_type_and_size_checks _).2.1 (by decide) (by decide),
   (C8_media_type_and_size_checks _).2.2 (by decide) (by decide)⟩

/-- C10: when supabase is not configured, an authenticated upload of a valid
image still answers 200 with the new avatar URL while the profile table is
left unchanged. -/
theorem C10_success_without_profile_update (env : Env) (now : Nat) (f : UploadFile)
    (tok : Token) (decoded : IdentityClaimSet) (dbe : Bool) (st : ServerState)
    (hconf : env.supabaseConfigured = false)
    (hm : multerCheck f = none)
    (hv : verify tok (jwtSecretOf env.jwtSecret) now = .ok decoded) :
    (uploadAvatar env now ⟨some f, some tok⟩ dbe st).1 = .ok (avatarUrlFor env f) ∧
    (uploadAvatar env now ⟨some f, some tok⟩ dbe st).2.profiles = st.profiles := by
  simp [uploadAvatar, hm, hv, hconf]

/-- C10 witness: concrete authenticated upload with supabase absent. -/
theorem C10_success_without_profile_update_witness :
    (uploadAvatar ⟨none, none, false⟩ 0 ⟨some wFile, some wTok⟩ false ⟨[], [wProfile]⟩).1
        = .ok (avatarUrlFor ⟨none, none, false⟩ wFile) ∧
    (uploadAvatar ⟨none, none, false⟩ 0 ⟨some wFile, some wTok⟩ false ⟨[], [wProfile]⟩).2.profiles
        = (⟨[], [wProfile]⟩ : ServerState).profiles :=
  C10_success_without_profile_update ⟨none, none, false⟩ 0 wFile wTok wClaims false
    ⟨[], [wProfile]⟩ rfl (by decide) (by decide)

/-- C4: verification distinguishes the three failure kinds — an unparsable
credential yields Malformed, a credential signed under a different secret
yields InvalidSignature, and a well formed credential correctly signed but
checked after its expiry instant yields Expired, never Malformed or
success. -/
theorem C4_verify_error_kinds (secret : String) (now : Nat) :
    (∀ raw, verify (.malformed raw) secret now = .malformedErr) ∧
    (∀ c s, s ≠ secret → verify (.signed c s) secret now = .invalidSignature) ∧
    (∀ c, c.exp < now → verify (.signed c secret) secret now = .expired) := by
  refine ⟨fun raw => rfl, fun c s hs => ?_, fun c hc => ?_⟩
  · simp [verify, hs]
  · simp [verify, hc]

/-- C4 witness: the three kinds at concrete inputs. -/
theorem C4_verify_error_kinds_witness :
    verify (.malformed "xx") "s" 5 = .malformedErr ∧
    verify (.signed wClaims "bad") "s" 5 = .invalidSignature ∧
    verify (.signed wClaims "s") "s" 101 = .expired :=
  ⟨(C4_verify_error_kinds "s" 5).1 "xx",
   (C4_verify_error_kinds "s" 5).2.1 wClaims "bad" (by decide),
   (C4_verify_error_kinds "s" 101).2.2 wClaims (by decide)⟩

/-- C7: round trip of the credential codec — verifying, before the expiry
instant, a credential issued from a claim set under the same secret returns
that claim set unchanged. -/
theorem C7_roundtrip (c : IdentityClaimSet) (secret : String) (now : Nat)
    (h : now ≤ c.exp) :
    verify (issue c secret) secret now = .ok c := by
  simp [verify, issue, Nat.not_lt.mpr h]

/-- C7 witness: round trip at a concrete claim set. -/
theorem C7_roundtrip_witness :
    verify (issue wClaims "s") "s" 0 = .ok wClaims :=
  C7_roundtrip wClaims "s" 0 (by decide)

/-- C6 counterexample: with the signing secret absent from the environment
the code substitutes the built in default strings and the avatar endpoint
still verifies a credential signed under the default and answers 200 — the
process does not fail at startup. -/
theorem C6_counterexample :
    jwtSecretOf none = "tu_jwt_secret_aqui" ∧
    sessionSecretOf none = "tu_session_secret_aqui" ∧
    (uploadAvatar ⟨none, none, false⟩ 0 ⟨some wFile, some wTok⟩ false ⟨[], []⟩).1
        = .ok "http://localhost:3001/uploads/avatars/avatar-1.png" := by
  decide

/-- C6 amended: when the signing secret is absent from the configuration the
code falls back to built in default secrets (tu_jwt_secret_aqui for the JWT,
tu_session_secret_aqui for sessions) and credential issuing and verification
proceed normally under the default; absence is not a fatal startup error. -/
theorem C6_default_secret_fallback (c : IdentityClaimSet) (now : Nat)
    (h : now ≤ c.exp) :
    jwtSecretOf none = "tu_jwt_secret_aqui" ∧
    sessionSecretOf none = "tu_session_secret_aqui" ∧
    verify (issue c (jwtSecretOf none)) (jwtSecretOf none) now = .ok c := by
  refine ⟨rfl, rfl, ?_⟩
  simp [verify, issue, Nat.not_lt.mpr h]

/-- C6 amended witness: concrete unexpired claim set under the default. -/
theorem C6_default_secret_fallback_witness :
    jwtSecretOf none = "tu_jwt_secret_aqui" ∧
    sessionSecretOf none = "tu_session_secret_aqui" ∧
    verify (issue wClaims (jwtSecretOf none)) (jwtSecretOf none) 0 = .ok wClaims :=
  C6_default_secret_fallback wClaims 0 (by decide)

/-- C2 counterexample: on a store where the target freelancer id has a role
record but no user_profiles row, the check script completes leaving the
store unchanged — no unified profile is persisted for the id and no error
value is produced, so the divergence stays in place. -/
theorem C2_counterexample :
    (checkUserProfiles ⟨[], [targetFreelancerId]⟩).2 = ⟨[], [targetFreelancerId]⟩ ∧
    profileExists (checkUserProfiles ⟨[], [targetFreelancerId]⟩).2.profiles
        targetFreelancerId = false := by
  decide

/-- C2 amended: the check script is read only — it always returns the store
unchanged, and when the unified profile row of the target freelancer is
missing it only emits a diagnostic log naming the divergence and the
suggested fix; it neither persists a unified profile record nor returns an
IrreconcilableProfile error. -/
theorem C2_check_is_read_only (v : ApiView) :
    (checkUserProfiles v).2 = v ∧
    (profileExists v.profiles targetFreelancerId = false →
      "SOLUCION: El freelancer existe en la tabla freelancers pero NO en user_profiles"
        ∈ (checkUserProfiles v).1) := by
  refine ⟨rfl, fun h => ?_⟩
  simp [checkUserProfiles, h]

/-- C2 amended witness: concrete divergent store. -/
theorem C2_check_is_read_only_witness :
    (checkUserProfiles ⟨[], ["u9"]⟩).2 = ⟨[], ["u9"]⟩ ∧
    "SOLUCION: El freelancer existe en la tabla freelancers pero NO en user_profiles"
        ∈ (checkUserProfiles ⟨[], ["u9"]⟩).1 :=
  ⟨(C2_check_is_read_only ⟨[], ["u9"]⟩).1,
   (C2_check_is_read_only ⟨[], ["u9"]⟩).2 (by decide)⟩

/-- Characterization of a fully successful avatar upload: 200 with the new
URL, the asset stored, and the update by email applied to the table. -/
theorem uploadAvatar_success_eq (env : Env) (now : Nat) (f : UploadFile)
    (tok : Token) (decoded : IdentityClaimSet) (st : ServerState)
    (hconf : env.supabaseConfigured = true)
    (hm : multerCheck f = none)
    (hv : verify tok (jwtSecretOf env.jwtSecret) now = .ok decoded) :
    uploadAvatar env now ⟨some f, some tok⟩ false st
      = (.ok (avatarUrlFor env f),
         ⟨f.path :: st.uploadedFiles,
          updateAvatarByEmail st.profiles decoded.email (avatarUrlFor env f)⟩) := by
  simp [uploadAvatar, hm, hv, hconf]

/-- Rows whose email differs from the addressed email survive
updateAvatarByEmail unchanged. -/
theorem updateAvatarByEmail_mem_of_ne (ps : List ProfileRow) (e u : String)
    (p : ProfileRow) (hp : p ∈ ps) (hpe : p.email ≠ e) :
    p ∈ updateAvatarByEmail ps e u := by
  simp only [updateAvatarByEmail, List.mem_map]
  exact ⟨p, hp, if_neg hpe⟩

/-- Rows whose email equals the addressed email get the new url. -/
theorem updateAvatarByEmail_mem_of_eq (ps : List ProfileRow) (e u : String)
    (q : ProfileRow) (hq : q ∈ ps) (hqe : q.email = e) :
    { q with avatar_url := some u } ∈ updateAvatarByEmail ps e u := by
  simp only [updateAvatarByEmail, List.mem_map]
  exact ⟨q, hq, if_pos hqe⟩

/-- C5 counterexample: two updates for the same user both succeed (neither
receives a conflict error: no such outcome exists in the pipeline) and the
stored reference afterwards is the later writer's — the first write is
silently lost to last writer wins. -/
theorem C5_counterexample :
    (uploadAvatar ⟨none, none, true⟩ 0 ⟨some wFile, some wTok⟩ false ⟨[], [wProfile]⟩).1
        = .ok "http://localhost:3001/uploads/avatars/avatar-1.png" ∧
    (uploadAvatar ⟨none, none, true⟩ 0 ⟨some wFile2, some wTok⟩ false
        (uploadAvatar ⟨none, none, true⟩ 0 ⟨some wFile, some wTok⟩ false ⟨[], [wProfile]⟩).2).1
        = .ok "http://localhost:3001/uploads/avatars/avatar-2.png" ∧
    (uploadAvatar ⟨none, none, true⟩ 0 ⟨some wFile2, some wTok⟩ false
        (uploadAvatar ⟨none, none, true⟩ 0 ⟨some wFile, some wTok⟩ false ⟨[], [wProfile]⟩).2).2.profiles
        = [⟨"u1", "a@b.c", "A", some "http://localhost:3001/uploads/avatars/avatar-2.png"⟩] := by
  decide

/-- C5 amended: the avatar update is an unconditional write keyed by email
with no version or timestamp condition, so of two updates for the same user
both succeed (the pipeline has no ConcurrencyConflict outcome) and every
matching row afterwards holds the later submitted reference — last writer
wins and the earlier write is silently lost. -/
theorem C5_last_writer_wins (env : Env) (now : Nat) (tok : Token)
    (decoded : IdentityClaimSet) (f1 f2 : UploadFile) (st : ServerState)
    (hconf : env.supabaseConfigured = true)
    (hm1 : multerCheck f1 = none) (hm2 : multerCheck f2 = none)
    (hv : verify tok (jwtSecretOf env.jwtSecret) now = .ok decoded) :
    (uploadAvatar env now ⟨some f1, some tok⟩ false st).1 = .ok (avatarUrlFor env f1) ∧
    (uploadAvatar env now ⟨some f2, some tok⟩ false
        (uploadAvatar env now ⟨some f1, some tok⟩ false st).2).1 = .ok (avatarUrlFor env f2) ∧
    ∀ p ∈ (uploadAvatar env now ⟨some f2, some tok⟩ false
        (uploadAvatar env now ⟨some f1, some tok⟩ false st).2).2.profiles,
      p.email = decoded.email → p.avatar_url = some (avatarUrlFor env f2) := by
  rw [uploadAvatar_success_eq env now f1 tok decoded st hconf hm1 hv,
      uploadAvatar_success_eq env now f2 tok decoded _ hconf hm2 hv]
  exact ⟨rfl, rfl, fun p hp hpe => updateAvatarByEmail_matching _ _ _ p hp hpe⟩

/-- C5 amended witness: concrete pair of updates for the same user. -/
theorem C5_last_writer_wins_witness :
    (uploadAvatar ⟨none, none, true⟩ 0 ⟨some wFile, some wTok⟩ false ⟨[], [wProfile]⟩).1
        = .ok (avatarUrlFor ⟨none, none, true⟩ wFile) ∧
    (uploadAvatar ⟨none, none, true⟩ 0 ⟨some wFile2, some wTok⟩ false
        (uploadAvatar ⟨none, none, true⟩ 0 ⟨some wFile, some wTok⟩ false ⟨[], [wProfile]⟩).2).1
        = .ok (avatarUrlFor ⟨none, none, true⟩ wFile2) ∧
    (⟨"u1", "a@b.c", "A", some "http://localhost:3001/uploads/avatars/avatar-2.png"⟩ : ProfileRow).avatar_url
        = some (avatarUrlFor ⟨none, none, true⟩ wFile2) :=
  ⟨(C5_last_writer_wins ⟨none, none, true⟩ 0 wTok wClaims wFile wFile2 ⟨[], [wProfile]⟩
      rfl (by decide) (by decide) (by decide)).1,
   (C5_last_writer_wins ⟨none, none, true⟩ 0 wTok wClaims wFile wFile2 ⟨[], [wProfile]⟩
      rfl (by decide) (by decide) (by decide)).2.1,
   (C5_last_writer_wins ⟨none, none, true⟩ 0 wTok wClaims wFile wFile2 ⟨[], [wProfile]⟩
      rfl (by decide) (by decide) (by decide)).2.2
     ⟨"u1", "a@b.c", "A", some "http://localhost:3001/uploads/avatars/avatar-2.png"⟩
     (by decide) (by decide)⟩

/-- Row holding the user id of the witness claim set but another email. -/
def pSelf : ProfileRow :=
  ⟨"u1", "old@x.c", "A", none⟩

/-- Row of a different user whose email matches the witness claim set. -/
def pOther : ProfileRow :=
  ⟨"u2", "a@b.c", "B", none⟩

/-- C9 counterexample: the avatar write leaves the row whose user_id equals
the credential subject id untouched and instead updates a row of a
different user id whose email column matches — the write is addressed by
email, not by the canonical user id. -/
theorem C9_counterexample :
    wClaims.id = "u1" ∧ pSelf.user_id = "u1" ∧ pOther.user_id = "u2" ∧
    (uploadAvatar ⟨none, none, true⟩ 0 ⟨some wFile, some wTok⟩ false ⟨[], [pSelf, pOther]⟩).2.profiles
        = [pSelf, ⟨"u2", "a@b.c", "B", some "http://localhost:3001/uploads/avatars/avatar-1.png"⟩] := by
  decide

/-- C9 amended: the avatar write addresses user_profiles rows by the email
attribute of the decoded claim set, not by the canonical user id — a row
carrying the subject user id but a different email is left unchanged, while
every row with a matching email (any user id) receives the new
reference. -/
theorem C9_write_addressed_by_email (env : Env) (now : Nat) (tok : Token)
    (decoded : IdentityClaimSet) (f : UploadFile) (st : ServerState)
    (p q : ProfileRow)
    (hconf : env.supabaseConfigured = true)
    (hm : multerCheck f = none)
    (hv : verify tok (jwtSecretOf env.jwtSecret) now = .ok decoded)
    (hp : p ∈ st.profiles) (_hpid : p.user_id = decoded.id) (hpe : p.email ≠ decoded.email)
    (hq : q ∈ st.profiles) (hqe : q.email = decoded.email) :
    p ∈ (uploadAvatar env now ⟨some f, some tok⟩ false st).2.profiles ∧
    { q with avatar_url := some (avatarUrlFor env f) }
        ∈ (uploadAvatar env now ⟨some f, some tok⟩ false st).2.profiles := by
  rw [uploadAvatar_success_eq env now f tok decoded st hconf hm hv]
  exact ⟨updateAvatarByEmail_mem_of_ne st.profiles decoded.email (avatarUrlFor env f) p hp hpe,
         updateAvatarByEmail_mem_of_eq st.profiles decoded.email (avatarUrlFor env f) q hq hqe⟩

/-- C9 amended witness: concrete pair of rows. -/
theorem C9_write_addressed_by_email_witness :
    pSelf ∈ (uploadAvatar ⟨none, none, true⟩ 0 ⟨some wFile, some wTok⟩ false ⟨[], [pSelf, pOther]⟩).2.profiles ∧
    { pOther with avatar_url := some (avatarUrlFor ⟨none, none, true⟩ wFile) }
        ∈ (uploadAvatar ⟨none, none, true⟩ 0 ⟨some wFile, some wTok⟩ false ⟨[], [pSelf, pOther]⟩).2.profiles :=
  C9_write_addressed_by_email ⟨none, none, true⟩ 0 wTok wClaims wFile ⟨[], [pSelf, pOther]⟩
    pSelf pOther rfl (by decide) (by decide) (by decide) (by decide) (by decide)
    (by decide) (by decide)

end Plataforma
